import Mathlib

/-!
Shallow embedding of the placecage image-server core (src/src/main.rs).

The relevant Rust code is pure apart from filesystem calls; those calls
are modelled by oracles collected in a `World` record, and each run of
`get_image` additionally returns the list of filesystem operations it
performed, in order.  Machine integers (`u32`) are modelled as `Nat`
with explicit reduction modulo 2^32 where the code adds two of them
(release-profile wrapping semantics of Rust's `+` on `u32`).  The Rust
expression `x % 0` on `u32` panics; the embedding makes that outcome
explicit as a dedicated constructor, since Lean's `Nat` modulo by zero
would silently return `x`.
-/

/-- `enum Subject` from main.rs (lines 11-17). -/
inductive Subject
  | cage
  | murray
  | segall
deriving DecidableEq, Repr

/-- `impl Display for Subject` (main.rs lines 19-27). -/
def Subject.display : Subject → String
  | .cage => "cage"
  | .murray => "murray"
  | .segall => "segall"

/-- `enum ImageKind` from main.rs (lines 29-35). -/
inductive ImageKind
  | default
  | crazy
  | gif
deriving DecidableEq, Repr

/-- `impl Display for ImageKind` (main.rs lines 37-45). -/
def ImageKind.display : ImageKind → String
  | .crazy => "crazy"
  | .default => "default"
  | .gif => "gif"

/-- `fn get_image_count` (main.rs lines 47-56): the catalog registry. -/
def get_image_count (subject : Subject) (kind : ImageKind) : Nat :=
  match subject, kind with
  | .cage, .crazy => 23
  | .cage, .default => 33
  | .cage, .gif => 43
  | .murray, .default => 23
  | .segall, .default => 30
  | _, _ => 0

/-- Rust `u32` addition with release-profile wrapping semantics. -/
def add32 (a b : Nat) : Nat :=
  (a + b) % 2 ^ 32

/-- `image::imageops::FilterType` values used by the code. -/
inductive FilterType
  | Nearest
  | CatmullRom
deriving DecidableEq, Repr

/-- The resampling-filter choice inside `fn resize_to_fill`
(main.rs lines 65-69): `Nearest` when `width + height > 3000`,
`CatmullRom` otherwise. -/
def filter_for (width height : Nat) : FilterType :=
  if add32 width height > 3000 then .Nearest else .CatmullRom

/-- The selector expression `((width + height) % image_count) + 1`
from main.rs line 116, for `image_count > 0` (at `image_count = 0` the
Rust code panics; `get_image` below models that case separately). -/
def selected_image (width height image_count : Nat) : Nat :=
  add32 width height % image_count + 1

/-- `io::ErrorKind` variants used by the code. -/
inductive ErrorKind
  | invalidInput
  | invalidData
  | unsupported
  | other
deriving DecidableEq, Repr

/-- The variants of `image::ImageError` matched in `fn resize_to_fill_io`. -/
inductive ImageErr
  | Decoding
  | Encoding
  | IoError
  | Limits
  | Parameter
  | Unsupported
deriving DecidableEq, Repr

/-- The `ImageError → io::Error` kind mapping of `fn resize_to_fill_io`
(main.rs lines 81-93). -/
def map_image_error : ImageErr → ErrorKind
  | .Decoding => .invalidData
  | .Encoding => .unsupported
  | .IoError => .other
  | .Limits => .unsupported
  | .Parameter => .invalidInput
  | .Unsupported => .unsupported

/-- `let input_dir = format!("{cur_path}/images/source/{subject}/{kind}/")`
(main.rs line 111). -/
def input_dir (cur_path : String) (subject : Subject) (kind : ImageKind) : String :=
  cur_path ++ "/images/source/" ++ subject.display ++ "/" ++ kind.display ++ "/"

/-- `let output_dir = format!("{cur_path}/images/_gen/{subject}/{kind}/")`
(main.rs line 112). -/
def output_dir (cur_path : String) (subject : Subject) (kind : ImageKind) : String :=
  cur_path ++ "/images/_gen/" ++ subject.display ++ "/" ++ kind.display ++ "/"

/-- `let input_file = format!("{input_dir}/{selected_image}.jpg")`
(main.rs line 117).  Note `input_dir` already ends in `/`. -/
def input_file (cur_path : String) (subject : Subject) (kind : ImageKind)
    (idx : Nat) : String :=
  input_dir cur_path subject kind ++ "/" ++ toString idx ++ ".jpg"

/-- `let output_file = format!("{output_dir}/{width}x{height}.jpg")`
(main.rs line 118).  Note `output_dir` already ends in `/`. -/
def output_file (cur_path : String) (subject : Subject) (kind : ImageKind)
    (width height : Nat) : String :=
  output_dir cur_path subject kind ++ "/" ++ toString width ++ "x" ++ toString height ++ ".jpg"

/-- A filesystem operation performed by `get_image`, recorded in order. -/
inductive FsOp
  | createDirAll (dir : String)
  | resizeCall (width height : Nat) (inputPath outputPath : String)
deriving DecidableEq, Repr

/-- Oracles for the effectful calls inside `get_image`:
`env::current_dir`, `fs::create_dir_all` (`none` = success), and the
outcome of `resize_to_fill` for given dimensions and paths. -/
structure World where
  curDirRes : Except ErrorKind String
  mkdirRes : String → Option ErrorKind
  resizeRes : Nat → Nat → String → String → Except ImageErr Unit

/-- Outcome of a `get_image` run: `Ok(output_file)`, an `io::Error`
of some kind, or the panic the Rust code hits on `% 0`. -/
inductive GetImageResult
  | ok (outputPath : String)
  | err (k : ErrorKind)
  | panicDivByZero
deriving DecidableEq, Repr

/-- `fn get_image` (main.rs lines 96-122), with the filesystem trace made
explicit.  The code checks `width + height > 7000` first, applies the
defaults `Subject::Cage` and `ImageKind::Default`, reads the current
directory, calls `fs::create_dir_all` on the output directory, and only
then looks up the image count; there is no `count == 0` guard, so for an
unsupported (subject, kind) pair the expression
`((width + height) % image_count) + 1` divides by zero and panics. -/
def get_image (w : World) (width height : Nat)
    (subject_op : Option Subject) (kind_op : Option ImageKind) :
    GetImageResult × List FsOp :=
  if add32 width height > 7000 then
    (.err .invalidInput, [])
  else
    let subject := subject_op.getD .cage
    let kind := kind_op.getD .default
    match w.curDirRes with
    | .error k => (.err k, [])
    | .ok cur_path =>
      let out_dir := output_dir cur_path subject kind
      match w.mkdirRes out_dir with
      | some k => (.err k, [.createDirAll out_dir])
      | none =>
        let image_count := get_image_count subject kind
        if image_count = 0 then
          (.panicDivByZero, [.createDirAll out_dir])
        else
          let idx := selected_image width height image_count
          let in_file := input_file cur_path subject kind idx
          let out_file := output_file cur_path subject kind width height
          match w.resizeRes width height in_file out_file with
          | .error e =>
            (.err (map_image_error e),
             [.createDirAll out_dir, .resizeCall width height in_file out_file])
          | .ok _ =>
            (.ok out_file,
             [.createDirAll out_dir, .resizeCall width height in_file out_file])

/-- A world in which every filesystem call succeeds and the current
directory is `"."`. -/
def okWorld : World where
  curDirRes := .ok "."
  mkdirRes := fun _ => none
  resizeRes := fun _ _ _ _ => .ok ()

/-- C7: `get_image_count` is total and side-effect-free, returning
cage/default=33, cage/crazy=23, cage/gif=43, murray/default=23,
segall/default=30, and 0 for every other (Subject, Kind) pair. -/
theorem c7_image_count_table :
    get_image_count .cage .default = 33 ∧
    get_image_count .cage .crazy = 23 ∧
    get_image_count .cage .gif = 43 ∧
    get_image_count .murray .default = 23 ∧
    get_image_count .segall .default = 30 ∧
    get_image_count .murray .crazy = 0 ∧
    get_image_count .murray .gif = 0 ∧
    get_image_count .segall .crazy = 0 ∧
    get_image_count .segall .gif = 0 := by
  decide

theorem slash_pair (s : String) : ("/" : String) ++ ("/" ++ s) = "//" ++ s := by
  have h : ("/" : String) ++ "/" = "//" := rfl
  rw [← String.append_assoc, h]

/-- C1: the spec says an unsupported (subject, kind) pair (count 0, e.g.
murray/crazy) yields an InvalidInput error before the Selector's modulo
and without filesystem access.  The code has no `count == 0` guard: for
(murray, crazy) it first calls `fs::create_dir_all` on the output
directory and then panics with a division by zero at
`((width + height) % image_count) + 1`. -/
theorem c1_unsupported_panics_after_mkdir :
    get_image_count .murray .crazy = 0 ∧
    get_image okWorld 10 10 (some .murray) (some .crazy) =
      (.panicDivByZero, [.createDirAll "./images/_gen/murray/crazy/"]) := by
  decide

/-- C2 counterexample: for (cage, default, 100, 200) the selected index
is ((100+200) mod 33) + 1 = 4, not 1 as the claim computes, and the
output path carries a double slash, so it is not
`<base>/_gen/cage/default/100x200.jpg`. -/
theorem c2_counterexample :
    selected_image 100 200 (get_image_count .cage .default) ≠ 1 ∧
    (get_image okWorld 100 200 (some .cage) (some .default)).1 ≠
      GetImageResult.ok "./images/_gen/cage/default/100x200.jpg" := by
  decide

/-- C2 amended: for (cage, default, 100, 200) the catalog count is 33,
the selected 1-based index is ((100+200) mod 33) + 1 = 4, the resizer is
invoked with target dimensions 100x200, and the returned output path is
`<base>/_gen/cage/default//100x200.jpg` (double slash: the directory
string already ends in `/` and the file name is joined with another). -/
theorem c2_end_to_end :
    get_image_count .cage .default = 33 ∧
    selected_image 100 200 33 = (100 + 200) % 33 + 1 ∧
    selected_image 100 200 33 = 4 ∧
    get_image okWorld 100 200 (some .cage) (some .default) =
      (.ok "./images/_gen/cage/default//100x200.jpg",
       [.createDirAll "./images/_gen/cage/default/",
        .resizeCall 100 200 "./images/source/cage/default//4.jpg"
          "./images/_gen/cage/default//100x200.jpg"]) := by
  refine ⟨rfl, by decide, by decide, rfl⟩

/-- C3: if the u32 sum of width and height exceeds 7000, `get_image`
returns an InvalidInput error with an empty filesystem trace (it returns
before `env::current_dir` and `fs::create_dir_all`); if the sum is
exactly 7000 and the (subject, kind) pair after defaulting is supported,
the request is not rejected by this validation and runs the full
pipeline (in a world where every filesystem call succeeds, it returns an
output path). -/
theorem c3_bound_validation (w : World) (width height : Nat)
    (s : Option Subject) (k : Option ImageKind) :
    (add32 width height > 7000 →
      get_image w width height s k = (.err .invalidInput, [])) ∧
    (add32 width height = 7000 →
      get_image_count (s.getD .cage) (k.getD .default) ≠ 0 →
      ∃ p, (get_image okWorld width height s k).1 = .ok p) := by
  constructor
  · intro h
    simp [get_image, h]
  · intro h7 hc
    refine ⟨output_file "." (s.getD .cage) (k.getD .default) width height, ?_⟩
    simp [get_image, h7, okWorld, hc]

theorem c3_bound_validation_witness :
    get_image okWorld 3000 4001 (some .cage) (some .default) =
      (.err .invalidInput, []) ∧
    ∃ p, (get_image okWorld 3000 4000 (some .cage) (some .default)).1 =
      GetImageResult.ok p :=
  ⟨(c3_bound_validation okWorld 3000 4001 (some .cage) (some .default)).1 (by decide),
   (c3_bound_validation okWorld 3000 4000 (some .cage) (some .default)).2
     (by decide) (by decide)⟩

/-- C4: for every width, height, and image count > 0, the selected index
((width + height) mod count) + 1 lies in [1, count]. -/
theorem c4_selector_bounds (width height image_count : Nat)
    (h : 0 < image_count) :
    1 ≤ selected_image width height image_count ∧
    selected_image width height image_count ≤ image_count := by
  have hm := Nat.mod_lt (add32 width height) h
  unfold selected_image
  omega

theorem c4_selector_bounds_witness :
    1 ≤ selected_image 100 200 33 ∧ selected_image 100 200 33 ≤ 33 :=
  c4_selector_bounds 100 200 33 (by decide)

/-- C5: the resizer picks the fast filter (`Nearest`) exactly when the
u32 sum width + height exceeds 3000, and the higher-quality filter
(`CatmullRom`) otherwise; sum 3000 gives `CatmullRom`, 3001 gives
`Nearest`. -/
theorem c5_filter_threshold :
    (∀ width height,
      filter_for width height = FilterType.Nearest ↔ add32 width height > 3000) ∧
    filter_for 1000 2000 = FilterType.CatmullRom ∧
    filter_for 1000 2001 = FilterType.Nearest := by
  refine ⟨fun width height => ?_, by decide, by decide⟩
  by_cases h : add32 width height > 3000 <;> simp [filter_for, h]

/-- C6 counterexample: the claimed exact path strings lack the double
slash the code produces: with base `./images`, the computed source path
for (cage, default, index 4) is `./images/source/cage/default//4.jpg`,
not `./images/source/cage/default/4.jpg`, and likewise for the output
path. -/
theorem c6_counterexample :
    input_file "." .cage .default 4 = "./images/source/cage/default//4.jpg" ∧
    input_file "." .cage .default 4 ≠ "./images/source/cage/default/4.jpg" ∧
    output_file "." .cage .default 100 200 = "./images/_gen/cage/default//100x200.jpg" ∧
    output_file "." .cage .default 100 200 ≠ "./images/_gen/cage/default/100x200.jpg" := by
  refine ⟨rfl, by decide, rfl, by decide⟩

/-- C6 amended: for every request the source path is exactly
`<base>/source/<subject>/<kind>//<index>.jpg` and the output path
exactly `<base>/_gen/<subject>/<kind>//<width>x<height>.jpg`, with a
double separator before the final component (the directory string
already ends in `/` and the format string inserts another), where
`<base>` is the process working directory followed by `/images` and
`<subject>`, `<kind>` are the lowercase display tokens. -/
theorem c6_path_shape (cur_path : String) (subject : Subject)
    (kind : ImageKind) (idx width height : Nat) :
    input_file cur_path subject kind idx =
      cur_path ++ "/images/source/" ++ subject.display ++ "/" ++
        kind.display ++ "//" ++ toString idx ++ ".jpg" ∧
    output_file cur_path subject kind width height =
      cur_path ++ "/images/_gen/" ++ subject.display ++ "/" ++
        kind.display ++ "//" ++ toString width ++ "x" ++ toString height ++ ".jpg" := by
  constructor <;>
    simp only [input_file, output_file, input_dir, output_dir,
      String.append_assoc, slash_pair]

/-- C8: `get_image` with kind absent equals `get_image` with kind
`Default`, and with subject absent equals `get_image` with subject
`Cage`, for every world, width, height, and remaining argument. -/
theorem c8_defaults (w : World) (width height : Nat)
    (s : Option Subject) (k : Option ImageKind) :
    get_image w width height s none =
      get_image w width height s (some .default) ∧
    get_image w width height none k =
      get_image w width height (some .cage) k :=
  ⟨rfl, rfl⟩

/-- C10: u32 addition wraps modulo 2^32: at width = 4294967295 and
height = 1 the wrapped sum is 0, so the `> 7000` validation passes, the
filter choice sees 0 (`CatmullRom`), the selected index is
(0 mod 33) + 1 = 1, and the request runs the full pipeline. -/
theorem c10_u32_wrap :
    add32 4294967295 1 = 0 ∧
    ¬ add32 4294967295 1 > 7000 ∧
    filter_for 4294967295 1 = FilterType.CatmullRom ∧
    selected_image 4294967295 1 33 = 1 ∧
    get_image okWorld 4294967295 1 (some .cage) (some .default) =
      (.ok "./images/_gen/cage/default//4294967295x1.jpg",
       [.createDirAll "./images/_gen/cage/default/",
        .resizeCall 4294967295 1 "./images/source/cage/default//1.jpg"
          "./images/_gen/cage/default//4294967295x1.jpg"]) := by
  refine ⟨by decide, by decide, by decide, by decide, rfl⟩
